import Mathlib

/-!
Verification of the chogori-platform specification claims against a shallow
embedding of the repository sources:

* `src/k2/module/k23si/Module.h`      — K23SI request validation helpers
* `src/k2/tso/service/TSOWorker.cpp`  — timestamp batch issuance
* `src/k2/cpo/client/CPOClient.h`     — CPO client partition routing / retry
* `src/k2/cmd/tpcc/tpcc_client.cpp`   — TPC-C client helpers

Types that the sources use but whose definitions are not part of the sources
(`dto::Timestamp`, `Status`, `FulfillWaiters`) are modelled from the
specification and are marked as such in their doc comments.
-/

namespace k2

/-- Modelled from the spec: `dto::Timestamp` (dto/Timestamp.h is not among the
sources) is a totally ordered triple `(start, end, tsoId)`. -/
structure Timestamp where
  startCount : Nat
  endCount : Nat
  tsoId : Nat

/-- Modelled from the spec: `compareCertain` is the three-valued comparator
(strictly less / equal / greater), comparing the uncertainty windows by
`end` vs `start` across TSO instances and by endpoint within one TSO.
The result is encoded as an `Int` sign, matching how the sources consume it
(`compareCertain(x) >= 0`). -/
def Timestamp.compareCertain (a b : Timestamp) : Int :=
  if a.tsoId = b.tsoId then
    if a.endCount < b.endCount then -1
    else if a.endCount = b.endCount then 0
    else 1
  else
    if a.endCount < b.startCount then -1
    else if b.endCount < a.startCount then 1
    else 0

/-- Key from the data model: `(schemaName, partitionKey, rangeKey)`. -/
structure Key where
  schemaName : String
  partitionKey : String
  rangeKey : String

/-- Status kinds that `_validateReadRequest` can produce (`dto::K23SIStatus`). -/
inductive K23SIStatusKind
  | RefreshCollection
  | BadParameter
  | AbortRequestTooOld
  | OperationNotAllowed
  | OK
deriving DecidableEq

/-- Status value: a kind together with the message the module attaches. -/
structure K23SIStatus where
  kind : K23SIStatusKind
  msg : String

/-- Shallow state of the request fields that the validation helpers in
`Module.h` inspect.  The C++ helpers are templates dispatching on the request
type at compile time; the only type distinction they make is Query vs
non-Query, captured here by the `isQuery` flag. -/
structure SIRequest where
  collectionName : String
  pvid : Nat
  key : Key
  isQuery : Bool
  reverseDirection : Bool
  mtrTimestamp : Timestamp

/-- Shallow state of the partition module fields that the validation helpers
read: `_cmeta.name`, `_partition().pvid`, `_partition.owns`,
`_retentionTimestamp` and `_schemas`.  Ownership checks are kept abstract as
function fields (`dto::OwnerPartition::owns` is not among the sources); only
their boolean outcome feeds the validation logic. -/
structure PartitionModuleState where
  cmetaName : String
  pvid : Nat
  ownsKey : Key → Bool
  ownsKeyRev : Key → Bool → Bool
  retentionTimestamp : Timestamp
  schemas : List String

/-- Embedding of `_validateRequestPartition` (Module.h): collection name and
pvid must match, and the partition must own the request key (for Query the
overload taking the scan direction is used). -/
def validateRequestPartition (st : PartitionModuleState) (req : SIRequest) : Bool :=
  (req.collectionName == st.cmetaName) && (req.pvid == st.pvid) &&
    (if req.isQuery then st.ownsKeyRev req.key req.reverseDirection
     else st.ownsKey req.key)

/-- Embedding of `_validateRetentionWindow` (Module.h):
`req.mtr.timestamp.compareCertain(_retentionTimestamp) >= 0`. -/
def validateRetentionWindow (st : PartitionModuleState) (req : SIRequest) : Bool :=
  decide (0 ≤ req.mtrTimestamp.compareCertain st.retentionTimestamp)

/-- Embedding of `_validateRequestPartitionKey` (Module.h): Query requests are
always accepted (an empty partition key means start or end of the schema set);
every other request requires `!req.key.partitionKey.empty()`. -/
def validateRequestPartitionKey (req : SIRequest) : Bool :=
  if req.isQuery then true
  else if req.key.partitionKey = "" then false else true

/-- Embedding of `_validateReadRequest` (Module.h): the early-return chain of
checks with the exact statuses and messages of the source. -/
def validateReadRequest (st : PartitionModuleState) (req : SIRequest) : K23SIStatus :=
  if !validateRequestPartition st req then
    { kind := .RefreshCollection, msg := "collection refresh needed in read-type request" }
  else if !validateRequestPartitionKey req then
    { kind := .BadParameter, msg := "missing partition key in read-type request" }
  else if !validateRetentionWindow st req then
    { kind := .AbortRequestTooOld, msg := "request too old in read-type request" }
  else if !(st.schemas.contains req.key.schemaName) then
    { kind := .OperationNotAllowed, msg := "schema does not exist in read-type request" }
  else
    { kind := .OK, msg := "" }

/-! TSO worker (`src/k2/tso/service/TSOWorker.cpp`). -/

/-- Control info fields of `TSOWorkerControlInfo` that `GetTimestampFromTSO`
reads (TSOService.h is not among the sources; the fields and their meaning are
taken from their uses in TSOWorker.cpp). -/
structure TSOWorkerControlInfo where
  IsReadyToIssueTS : Bool
  IgnoreThreshold : Bool
  ReservedTimeThreshold : Nat
  TBENanoSecStep : Nat
  TsDelta : Nat
  BatchTTL : Nat

/-- The `TimestampBatch` returned to the client (fields as filled in by
TSOWorker.cpp). -/
structure TimestampBatch where
  TBEBase : Nat
  TSOId : Nat
  TsDelta : Nat
  TTLNanoSec : Nat
  TSCount : Nat
  TBENanoSecStep : Nat

/-- Mutable worker state threaded through calls:
`_lastRequestTBEMicroSecRounded` and `_lastRequestTimeStampCount`. -/
structure TSOWorkerState where
  lastRequestTBEMicroSecRounded : Nat
  lastRequestTimeStampCount : Nat

/-- Initial worker state (zero-initialized members). -/
def tsoInitState : TSOWorkerState := { lastRequestTBEMicroSecRounded := 0, lastRequestTimeStampCount := 0 }

/-- One call to `GetTimestampFromTSO` as seen by the model: the
microsecond-rounded time `t` observed on entry
(`(now_nsec_count() + TBEAdjustment) / 1000 * 1000`), the requested batch size
`n`, and the rounded time `t2` observed when the busy-wait loop of the
same-microsecond overflow path exits. -/
structure TSOCall where
  t : Nat
  n : Nat
  t2 : Nat

/-- Side conditions the physical clock guarantees for a call: observed times
are microsecond-rounded, and the time observed when the busy-wait exits is
later than the one observed on entry. -/
def tsoCallOk (c : TSOCall) : Prop :=
  c.t % 1000 = 0 ∧ c.t2 % 1000 = 0 ∧ c.t < c.t2

instance (c : TSOCall) : Decidable (tsoCallOk c) := by
  unfold tsoCallOk; infer_instance

/-- Guard of the fast path of `GetTimestampFromTSO`: ready, threshold ok (or
ignored), and the current microsecond is past the last one served. -/
def tsoFastGuard (ci : TSOWorkerControlInfo) (st : TSOWorkerState) (t : Nat) : Prop :=
  ci.IsReadyToIssueTS = true ∧
  (ci.IgnoreThreshold = true ∨ t + 1000 < ci.ReservedTimeThreshold) ∧
  st.lastRequestTBEMicroSecRounded < t

instance (ci : TSOWorkerControlInfo) (st : TSOWorkerState) (t : Nat) :
    Decidable (tsoFastGuard ci st t) := by unfold tsoFastGuard; infer_instance

/-- Body of the fast path: issue `min(batchSizeRequested, 1000/TBENanoSecStep)`
timestamps against the fresh microsecond `t`, with
`TBEBase = t + shard_id - 1`, and record `t` and the issued count in the
worker state. -/
def tsoFastIssue (ci : TSOWorkerControlInfo) (tsoId shardId : Nat)
    (t n : Nat) : TimestampBatch × TSOWorkerState :=
  let c := min n (1000 / ci.TBENanoSecStep)
  ({ TBEBase := t + shardId - 1, TSOId := tsoId, TsDelta := ci.TsDelta,
     TTLNanoSec := ci.BatchTTL, TSCount := c, TBENanoSecStep := ci.TBENanoSecStep },
   { lastRequestTBEMicroSecRounded := t, lastRequestTimeStampCount := c })

/-- Embedding of `GetTimestampFromTSO` together with its helper
`GetTimeStampFromTSOLessFrequentHelper`.  `none` models a thrown
`TSONotReadyException` (and the K2ASSERT failure of the helper, which cannot
return normally).  The helper's busy-wait loop exits at time `c.t2`; the
recursive call it then makes lands on the fast path when the fast guard holds
at `c.t2`, and otherwise rethrows inside the helper, since with
`IsReadyToIssueTS` set and `c.t2` past the last served microsecond the guard
can only have failed on the threshold check. -/
def GetTimestampFromTSO (ci : TSOWorkerControlInfo) (tsoId shardId : Nat)
    (st : TSOWorkerState) (c : TSOCall) : Option (TimestampBatch × TSOWorkerState) :=
  if tsoFastGuard ci st c.t then
    some (tsoFastIssue ci tsoId shardId c.t c.n)
  else if ci.IsReadyToIssueTS = false then
    none
  else if c.t + 1000 > ci.ReservedTimeThreshold ∧ ci.IgnoreThreshold = false then
    none
  else if c.t < st.lastRequestTBEMicroSecRounded then
    none
  else if c.t ≠ st.lastRequestTBEMicroSecRounded then
    none
  else
    let leftoverTS := 1000 / ci.TBENanoSecStep - st.lastRequestTimeStampCount
    if leftoverTS < c.n then
      if tsoFastGuard ci st c.t2 then
        some (tsoFastIssue ci tsoId shardId c.t2 c.n)
      else
        none
    else
      some ({ TBEBase := c.t + shardId - 1 + st.lastRequestTimeStampCount * ci.TBENanoSecStep,
              TSOId := tsoId, TsDelta := ci.TsDelta, TTLNanoSec := ci.BatchTTL,
              TSCount := c.n, TBENanoSecStep := ci.TBENanoSecStep },
            { lastRequestTBEMicroSecRounded := st.lastRequestTBEMicroSecRounded,
              lastRequestTimeStampCount := st.lastRequestTimeStampCount + c.n })

/-- Run a sequence of calls through the worker, collecting the successfully
issued batches.  A call that throws leaves the worker state unchanged (the
source throws before any state mutation). -/
def tsoRun (ci : TSOWorkerControlInfo) (tsoId shardId : Nat) :
    TSOWorkerState → List TSOCall → TSOWorkerState × List TimestampBatch
  | st, [] => (st, [])
  | st, c :: cs =>
    match GetTimestampFromTSO ci tsoId shardId st c with
    | none => tsoRun ci tsoId shardId st cs
    | some (b, st1) =>
      let r := tsoRun ci tsoId shardId st1 cs
      (r.1, b :: r.2)

/-- Modelled from the spec: the i-th timestamp issued from a batch
(`dto::TimestampBatch` decoding is not among the sources; per the spec a batch
issues a strictly-increasing sequence stepping by `TBENanoSecStep` from
`TBEBase`). -/
def tsAt (b : TimestampBatch) (i : Nat) : Nat :=
  b.TBEBase + i * b.TBENanoSecStep

/-- Watermark one past the highest timestamp the worker has issued: base of
the last served microsecond plus the shard offset plus issued count times
step. -/
def tsoHiWater (ci : TSOWorkerControlInfo) (shardId : Nat) (st : TSOWorkerState) : Nat :=
  st.lastRequestTBEMicroSecRounded + (shardId - 1) +
    st.lastRequestTimeStampCount * ci.TBENanoSecStep

/-- Worker state invariant: the last served microsecond is rounded, and no
more timestamps have been issued against it than fit in one microsecond. -/
def tsoStInv (ci : TSOWorkerControlInfo) (st : TSOWorkerState) : Prop :=
  st.lastRequestTBEMicroSecRounded % 1000 = 0 ∧
  st.lastRequestTimeStampCount ≤ 1000 / ci.TBENanoSecStep

/-! CPO client (`src/k2/cpo/client/CPOClient.h`). -/

/-- Modelled from the spec: the transport `Status` (transport/Status.h is not
among the sources) is an HTTP-like code with a message; equality in the
sources compares the code (the comparison against `S410_Gone("")` ignores the
message). -/
structure Status where
  code : Nat
  msg : String

/-- Modelled from the spec: a 2xx code is a success. -/
def Status.is2xxOK (s : Status) : Bool := 200 ≤ s.code && s.code ≤ 299

/-- Modelled from the spec: the retryable transport errors are the 5xx
(`5xxRetryable`) codes. -/
def Status.is5xxRetryable (s : Status) : Bool := 500 ≤ s.code && s.code ≤ 599

/-- Status constructors used by the CPO client paths under verification. -/
def Statuses.S408_Request_Timeout (m : String) : Status := { code := 408, msg := m }

/-- Status constructor for 410 Gone. -/
def Statuses.S410_Gone (m : String) : Status := { code := 410, msg := m }

/-- Status constructor for 503 Service Unavailable. -/
def Statuses.S503_Service_Unavailable (m : String) : Status := { code := 503, msg := m }

/-- Waiter registry `requestWaiters`: collection name mapped to the number of
waiter promises attached to the in-flight collection-get request. -/
def WaiterMap := List (String × Nat)

/-- Lookup of a collection name in the waiter registry
(`requestWaiters.find(name)`). -/
def lookupWaiters : WaiterMap → String → Option Nat
  | [], _ => none
  | (a, b) :: t, name => if a = name then some b else lookupWaiters t name

/-- Replace the waiter count recorded for a name. -/
def setWaiters : WaiterMap → String → Nat → WaiterMap
  | [], _, _ => []
  | (a, b) :: t, name, v =>
    if a = name then (a, v) :: t else (a, b) :: setWaiters t name v

/-- Erase a name from the waiter registry. -/
def eraseWaiters : WaiterMap → String → WaiterMap
  | [], _ => []
  | (a, b) :: t, name =>
    if a = name then t else (a, b) :: eraseWaiters t name

/-- Outcome of the entry section of `GetAssignedPartitionWithRetry`: either
the caller attached a promise to an existing waiter list (and issued no RPC),
or it registered the name and issued the collection-get RPC itself. -/
inductive GAPEntry
  | attachedWaiter (idx : Nat)
  | issuedCollectionGet
deriving DecidableEq

/-- Embedding of the entry section of `GetAssignedPartitionWithRetry`: if the
name is already registered in `requestWaiters`, emplace a new promise on its
waiter list and do not issue an RPC; otherwise register the name with an empty
waiter list and issue the collection-get RPC. -/
def gapEnter (m : WaiterMap) (name : String) : WaiterMap × GAPEntry :=
  match lookupWaiters m name with
  | some k => (setWaiters m name (k + 1), .attachedWaiter k)
  | none => ((name, 0) :: m, .issuedCollectionGet)

/-- Modelled from the spec: `FulfillWaiters` (defined in CPOClient.cpp, which
is not among the sources) delivers the in-flight request's resulting status to
every waiter promise attached for the collection and clears its entry, so a
later call issues a fresh RPC. -/
def FulfillWaiters (m : WaiterMap) (name : String) (s : Status) : WaiterMap × List Status :=
  match lookupWaiters m name with
  | some k => (eraseWaiters m name, List.replicate (k + 1) s)
  | none => (m, [])

/-- Environment of one `GetAssignedPartitionWithRetry` retry loop, indexed by
attempt number: the status the CPO returned, whether the partition for the key
is present and `Assigned` in the returned collection, the deadline state and
remaining time, and the configured backoff. -/
structure GAPEnv where
  cpoStatus : Nat → Status
  assigned : Nat → Bool
  deadlineOver : Nat → Bool
  remaining : Nat → Nat
  backoff : Nat

/-- Embedding of the retry logic of `GetAssignedPartitionWithRetry` (the
non-waiter path, after the collection-get RPC completes).  Returns the final
status and the list of backoff sleeps performed
(`min(deadline.getRemaining(), cpo_request_backoff())` each). -/
def GetAssignedPartitionWithRetry (env : GAPEnv) : Nat → Nat → Status × List Nat
  | retries, attempt =>
    let s := env.cpoStatus attempt
    let retry := if s.is2xxOK then !env.assigned attempt else s.is5xxRetryable
    if s.is2xxOK = false ∧ s.is5xxRetryable = false then (s, [])
    else if retry = false then (s, [])
    else if s.is2xxOK = true ∧ retries = 0 then
      (Statuses.S503_Service_Unavailable "not all partitions assigned in cpo", [])
    else if env.deadlineOver attempt = true then
      (Statuses.S408_Request_Timeout "cpo deadline exceeded", [])
    else
      match retries with
      | 0 => (Statuses.S408_Request_Timeout "cpo retries exceeded", [])
      | r + 1 =>
        let slp := min (env.remaining attempt) env.backoff
        let rest := GetAssignedPartitionWithRetry env r (attempt + 1)
        (rest.1, slp :: rest.2)

/-- Observable events of a `PartitionRequest` execution. -/
inductive PREvent
  | collectionGet (attempt : Nat)
  | partitionRPC (attempt : Nat)
  | refreshGet (attempt : Nat)
deriving DecidableEq

/-- Environment of one `PartitionRequest` execution, indexed by attempt
number: the cache state on entry, the cache state after the (possible)
collection get, the status that get resolved with, the partition RPC outcome
(status and an abstract response payload), and the deadline state. -/
structure PREnv where
  collCached : Nat → Bool
  cachedAssigned : Nat → Bool
  collPresent : Nat → Bool
  assigned : Nat → Bool
  gapStatus : Nat → Status
  rpcStatus : Nat → Status
  rpcResp : Nat → Nat
  deadlineOver : Nat → Bool

/-- Events of the pre-RPC section of one `PartitionRequest` attempt: a
collection get is issued unless the collection is cached with its partition
assigned, and then the partition RPC itself. -/
def prTrace (env : PREnv) (attempt : Nat) : List PREvent :=
  (if env.collCached attempt && env.cachedAssigned attempt then []
   else [PREvent.collectionGet attempt]) ++ [PREvent.partitionRPC attempt]

/-- Embedding of `CPOClient::PartitionRequest`: refresh the collection if
needed, fail with the collection-get status when the collection is still
missing, fail with 503 when the partition is still not assigned, otherwise
issue the partition RPC; a response that is neither 410 Gone nor 5xx-retryable
is returned unchanged, and otherwise the call refreshes the partition map and
reissues with one retry fewer, until the deadline or the retry budget is
exhausted.  The result carries the status, the response payload when the RPC
response is handed back, and the event trace. -/
def PartitionRequest (env : PREnv) : Nat → Nat → Status × Option Nat × List PREvent
  | retries, attempt =>
    if env.collPresent attempt = false then
      (env.gapStatus attempt, none,
        if env.collCached attempt && env.cachedAssigned attempt then []
        else [PREvent.collectionGet attempt])
    else if env.assigned attempt = false then
      (Statuses.S503_Service_Unavailable "partition not assigned", none,
        if env.collCached attempt && env.cachedAssigned attempt then []
        else [PREvent.collectionGet attempt])
    else
      let s := env.rpcStatus attempt
      if s.code ≠ 410 ∧ s.is5xxRetryable = false then
        (s, some (env.rpcResp attempt), prTrace env attempt)
      else if env.deadlineOver attempt = true then
        (Statuses.S408_Request_Timeout "partition deadline exceeded", none, prTrace env attempt)
      else
        match retries with
        | 0 => (Statuses.S408_Request_Timeout "partition retries exceeded", none, prTrace env attempt)
        | r + 1 =>
          let rest := PartitionRequest env r (attempt + 1)
          (rest.1, rest.2.1, prTrace env attempt ++ PREvent.refreshGet attempt :: rest.2.2)

/-! TPC-C client helpers (`src/k2/cmd/tpcc/tpcc_client.cpp`). -/

/-- Two's-complement conversion of the (mod 2^32) loop value to `int16_t`, as
performed by the call `FieldToKeyString<int16_t>((i*share)+1)`. -/
def int16OfNat (n : Nat) : Int :=
  let m := n % 65536
  if m < 32768 then (m : Int) else (m : Int) - 65536

/-- Embedding of `getRangeEnds`: one range end per partition,
`FieldToKeyString<int16_t>((i*share)+1)` for `i = 1..numPartitions`, with the
last entry overwritten by the open range end `""`.  The key encoding
`FieldToKeyString` is kept abstract as the parameter `enc` (FieldTypes are not
among the sources). -/
def getRangeEnds (enc : Int → String) (numPartitions numWarehouses : Nat) : List String :=
  let share0 := numWarehouses / numPartitions
  let share := if share0 = 0 then 1 else share0
  let rangeEnds := (List.range numPartitions).map fun i => enc (int16OfNat ((i + 1) * share + 1))
  rangeEnds.set (numPartitions - 1) ""

/-- Embedding of the Delivery batch-size initializer in `Client::_tpcc`:
`uint16_t batch_size = (x <= 10 && x > 0) ? batch_size : 10;` where `x` is the
configured `delivery_txn_batch_size`.  The read of the uninitialized
`batch_size` in the true branch is modelled by the explicit `uninit`
parameter holding whatever value the storage happens to contain. -/
def deliveryBatchSize (configured uninit : Nat) : Nat :=
  if configured ≤ 10 ∧ 0 < configured then uninit else 10

/-- The clamp the spec states as the intent for the Delivery batch size. -/
def deliveryBatchSizeIntended (configured : Nat) : Nat :=
  if configured ≤ 10 ∧ 0 < configured then configured else 10

/-! Concrete fixtures used by witnesses and counterexamples. -/

/-- Fixture: a partition module owning every key, with retention timestamp
`(100, 200, 1)` and one known schema. -/
def stFix : PartitionModuleState :=
  { cmetaName := "coll", pvid := 1, ownsKey := fun _ => true,
    ownsKeyRev := fun _ _ => true, retentionTimestamp := ⟨100, 200, 1⟩,
    schemas := ["sch"] }

/-- Fixture: a read request below the retention window (timestamp certainly
before `(100, 200, 1)`), otherwise valid. -/
def reqOld : SIRequest :=
  { collectionName := "coll", pvid := 1, key := ⟨"sch", "pk", ""⟩,
    isQuery := false, reverseDirection := false, mtrTimestamp := ⟨10, 20, 1⟩ }

/-- Fixture: a read request that both carries an empty partition key and is
below the retention window. -/
def reqEmptyKeyOld : SIRequest :=
  { collectionName := "coll", pvid := 1, key := ⟨"sch", "", ""⟩,
    isQuery := false, reverseDirection := false, mtrTimestamp := ⟨10, 20, 1⟩ }

/-- Fixture: GAP environment where the CPO answers 2xx but the partition is
never assigned and the deadline never fires. -/
def gapEnvFix : GAPEnv :=
  { cpoStatus := fun _ => { code := 200, msg := "OK" }, assigned := fun _ => false,
    deadlineOver := fun _ => false, remaining := fun _ => 300, backoff := 500 }

/-- Fixture: PartitionRequest environment with a cached assigned partition and
a 200 RPC response. -/
def prEnvOkFix : PREnv :=
  { collCached := fun _ => true, cachedAssigned := fun _ => true,
    collPresent := fun _ => true, assigned := fun _ => true,
    gapStatus := fun _ => { code := 200, msg := "OK" },
    rpcStatus := fun _ => { code := 200, msg := "OK" },
    rpcResp := fun _ => 42, deadlineOver := fun _ => false }

/-- Fixture: PartitionRequest environment whose partition stays unassigned
after the refresh. -/
def prEnvUnassignedFix : PREnv :=
  { collCached := fun _ => false, cachedAssigned := fun _ => false,
    collPresent := fun _ => true, assigned := fun _ => false,
    gapStatus := fun _ => { code := 200, msg := "OK" },
    rpcStatus := fun _ => { code := 200, msg := "OK" },
    rpcResp := fun _ => 0, deadlineOver := fun _ => false }

/-- Fixture: PartitionRequest environment whose first RPC answers 410 Gone and
whose second answers 200. -/
def prEnvGoneFix : PREnv :=
  { collCached := fun _ => true, cachedAssigned := fun _ => true,
    collPresent := fun _ => true, assigned := fun _ => true,
    gapStatus := fun _ => { code := 200, msg := "OK" },
    rpcStatus := fun a => if a = 0 then { code := 410, msg := "gone" } else { code := 200, msg := "OK" },
    rpcResp := fun _ => 7, deadlineOver := fun _ => false }

/-- Fixture: TSO control info, ready with the threshold ignored and a 100ns
step (ten timestamps per microsecond). -/
def tsoCiFix : TSOWorkerControlInfo :=
  { IsReadyToIssueTS := true, IgnoreThreshold := true, ReservedTimeThreshold := 0,
    TBENanoSecStep := 100, TsDelta := 10, BatchTTL := 8000 }

/-- Fixture: three calls, two in the same microsecond and one later. -/
def tsoCallsFix : List TSOCall := [⟨1000, 3, 2000⟩, ⟨1000, 5, 2000⟩, ⟨3000, 20, 4000⟩]

end k2

/-! Claim theorems. -/

/-- C1: the retention-window check rejects a request if and only if
`mtr.timestamp.compareCertain(retentionTimestamp) < 0`; a timestamp comparing
equal or greater passes, and a read-type request that passes the partition and
partition-key checks receives `AbortRequestTooOld` exactly when the retention
check fails. -/
theorem c1_retention_window_check (st : k2.PartitionModuleState) (req : k2.SIRequest)
    (hp : k2.validateRequestPartition st req = true)
    (hk : k2.validateRequestPartitionKey req = true) :
    (k2.validateRetentionWindow st req = false ↔
      req.mtrTimestamp.compareCertain st.retentionTimestamp < 0) ∧
    ((k2.validateReadRequest st req).kind = .AbortRequestTooOld ↔
      req.mtrTimestamp.compareCertain st.retentionTimestamp < 0) := by
  have hret : k2.validateRetentionWindow st req = false ↔
      req.mtrTimestamp.compareCertain st.retentionTimestamp < 0 := by
    simp [k2.validateRetentionWindow, not_le]
  refine ⟨hret, ?_⟩
  cases hr : k2.validateRetentionWindow st req with
  | false =>
    simp [k2.validateReadRequest, hp, hk, hr]
    exact hret.mp hr
  | true =>
    have hnot : ¬ req.mtrTimestamp.compareCertain st.retentionTimestamp < 0 := by
      intro hc
      rw [hret.mpr hc] at hr
      exact Bool.false_ne_true hr
    by_cases hm : req.key.schemaName ∈ st.schemas <;>
      simp [k2.validateReadRequest, hp, hk, hr, hm, hnot]

/-- C1 witness: a request below retention, with partition and key checks
passing, is rejected with `AbortRequestTooOld`. -/
theorem c1_retention_window_check_witness :
    (k2.validateReadRequest k2.stFix k2.reqOld).kind = .AbortRequestTooOld :=
  ((c1_retention_window_check k2.stFix k2.reqOld (by decide) (by decide)).2).mpr (by decide)

/-- C2 counterexample: a read request whose partition check passes but which
has an empty partition key and a timestamp below the retention window is
answered with `BadParameter`, not `AbortRequestTooOld`: the source checks the
partition key before the retention window. -/
theorem c2_counterexample_key_checked_before_retention :
    k2.validateRequestPartition k2.stFix k2.reqEmptyKeyOld = true ∧
    k2.validateRequestPartitionKey k2.reqEmptyKeyOld = false ∧
    k2.validateRetentionWindow k2.stFix k2.reqEmptyKeyOld = false ∧
    (k2.validateReadRequest k2.stFix k2.reqEmptyKeyOld).kind ≠ .AbortRequestTooOld ∧
    (k2.validateReadRequest k2.stFix k2.reqEmptyKeyOld).kind = .BadParameter := by
  decide

/-- C2 (amended): for every read-type request the checks are applied in the
order partition ownership, partition-key non-empty, retention window, schema
known, and the status returned is that of the first failing check:
`RefreshCollection`, `BadParameter`, `AbortRequestTooOld`,
`OperationNotAllowed` respectively, and `OK` when all pass; in particular a
request with both an empty partition key and a timestamp below retention
receives `BadParameter`. -/
theorem c2_amended_validation_order (st : k2.PartitionModuleState) (req : k2.SIRequest) :
    (k2.validateRequestPartition st req = false →
       (k2.validateReadRequest st req).kind = .RefreshCollection) ∧
    (k2.validateRequestPartition st req = true →
       k2.validateRequestPartitionKey req = false →
       (k2.validateReadRequest st req).kind = .BadParameter) ∧
    (k2.validateRequestPartition st req = true →
       k2.validateRequestPartitionKey req = true →
       k2.validateRetentionWindow st req = false →
       (k2.validateReadRequest st req).kind = .AbortRequestTooOld) ∧
    (k2.validateRequestPartition st req = true →
       k2.validateRequestPartitionKey req = true →
       k2.validateRetentionWindow st req = true →
       st.schemas.contains req.key.schemaName = false →
       (k2.validateReadRequest st req).kind = .OperationNotAllowed) ∧
    (k2.validateRequestPartition st req = true →
       k2.validateRequestPartitionKey req = true →
       k2.validateRetentionWindow st req = true →
       st.schemas.contains req.key.schemaName = true →
       (k2.validateReadRequest st req).kind = .OK) := by
  refine ⟨fun h1 => ?_, fun h1 h2 => ?_, fun h1 h2 h3 => ?_,
    fun h1 h2 h3 h4 => ?_, fun h1 h2 h3 h4 => ?_⟩ <;>
    simp [k2.validateReadRequest, h1] <;> simp_all

/-- C2 (amended) witness: the empty-key below-retention request receives
`BadParameter`. -/
theorem c2_amended_validation_order_witness :
    (k2.validateReadRequest k2.stFix k2.reqEmptyKeyOld).kind = .BadParameter :=
  (c2_amended_validation_order k2.stFix k2.reqEmptyKeyOld).2.1 (by decide) (by decide)

/-- C9: the partition-key non-empty validation is request-type dependent:
Query requests always pass it, any other request passes it exactly when its
partition key is non-empty. -/
theorem c9_partition_key_check_by_request_type (req : k2.SIRequest) :
    (req.isQuery = true → k2.validateRequestPartitionKey req = true) ∧
    (req.isQuery = false →
      (k2.validateRequestPartitionKey req = true ↔ req.key.partitionKey ≠ "")) := by
  refine ⟨fun h => ?_, fun h => ?_⟩
  · simp [k2.validateRequestPartitionKey, h]
  · by_cases hk : req.key.partitionKey = "" <;>
      simp [k2.validateRequestPartitionKey, h, hk]

/-- C9 witness: a non-Query request passes the key check exactly when its key
is non-empty; evaluated on the concrete fixture. -/
theorem c9_partition_key_check_witness :
    k2.reqOld.isQuery = false ∧
    (k2.validateRequestPartitionKey k2.reqOld = true ↔ k2.reqOld.key.partitionKey ≠ "") :=
  ⟨rfl, (c9_partition_key_check_by_request_type k2.reqOld).2 rfl⟩

/-- C7: the Delivery batch-size initializer does not clamp the configured
value into `[1, 10]`; in the in-range case it yields whatever the
uninitialized `batch_size` storage holds, so for a configured value of 5 the
result follows the junk value (7 or 9 here) instead of being 5. -/
theorem c7_delivery_batch_size_uninitialized :
    k2.deliveryBatchSize 5 7 = 7 ∧ k2.deliveryBatchSize 5 9 = 9 ∧
    k2.deliveryBatchSize 5 7 ≠ k2.deliveryBatchSizeIntended 5 ∧
    k2.deliveryBatchSizeIntended 5 = 5 := by
  decide

/-- Helper: overwriting the waiter count of a registered name is visible to a
subsequent lookup. -/
theorem lookupWaiters_setWaiters (m : k2.WaiterMap) (name : String) (v k : Nat)
    (h : k2.lookupWaiters m name = some k) :
    k2.lookupWaiters (k2.setWaiters m name v) name = some v := by
  induction m with
  | nil => simp [k2.lookupWaiters] at h
  | cons p t ih =>
    obtain ⟨a, b⟩ := p
    by_cases ha : a = name
    · simp [k2.lookupWaiters, k2.setWaiters, ha]
    · simp only [k2.lookupWaiters, k2.setWaiters, ha, if_false] at h ⊢
      exact ih h

/-- C5: while a collection-get for a name is registered in `requestWaiters`, a
new `GetAssignedPartitionWithRetry` call for that name issues no RPC of its
own: it attaches one more waiter promise, and when the in-flight request is
fulfilled every attached waiter receives the in-flight request's resulting
status; an RPC is issued exactly when no request for the name is registered. -/
theorem c5_single_inflight_collection_get (m : k2.WaiterMap) (name : String) (k : Nat)
    (h : k2.lookupWaiters m name = some k) :
    (k2.gapEnter m name).2 = .attachedWaiter k ∧
    k2.lookupWaiters (k2.gapEnter m name).1 name = some (k + 1) ∧
    (∀ s : k2.Status, ∀ x ∈ (k2.FulfillWaiters (k2.gapEnter m name).1 name s).2, x = s) ∧
    (∀ m2 : k2.WaiterMap, ∀ n2 : String,
       (k2.gapEnter m2 n2).2 = .issuedCollectionGet ↔ k2.lookupWaiters m2 n2 = none) := by
  have hmem : k2.lookupWaiters (k2.gapEnter m name).1 name = some (k + 1) := by
    simp only [k2.gapEnter, h]
    exact lookupWaiters_setWaiters m name (k + 1) k h
  refine ⟨by simp [k2.gapEnter, h], hmem, fun s x hx => ?_, fun m2 n2 => ?_⟩
  · simp only [k2.FulfillWaiters, hmem] at hx
    exact List.eq_of_mem_replicate hx
  · cases h2 : k2.lookupWaiters m2 n2 <;> simp [k2.gapEnter, h2]

/-- C5 witness: with a registered request for the name, the entry attaches a
waiter instead of issuing an RPC. -/
theorem c5_single_inflight_collection_get_witness :
    (k2.gapEnter [("collA", 0)] "collA").2 = .attachedWaiter 0 :=
  (c5_single_inflight_collection_get [("collA", 0)] "collA" 0 (by decide)).1

/-- C4: when the partition RPC completes with a status that is neither 410
Gone nor 5xx-retryable, `PartitionRequest` hands that status and response back
unchanged with no retry (the trace ends at that RPC); when the status is 410
Gone or 5xx-retryable and the deadline has not expired and retries remain, it
refreshes the partition map via `GetAssignedPartitionWithRetry` and reissues
the same request with retries decremented by one. -/
theorem c4_partition_request_retry_policy (env : k2.PREnv) (attempt retries : Nat)
    (hcoll : env.collPresent attempt = true)
    (hass : env.assigned attempt = true) :
    (((env.rpcStatus attempt).code ≠ 410 ∧ (env.rpcStatus attempt).is5xxRetryable = false) →
       k2.PartitionRequest env retries attempt =
         (env.rpcStatus attempt, some (env.rpcResp attempt), k2.prTrace env attempt)) ∧
    (∀ r, retries = r + 1 →
       ((env.rpcStatus attempt).code = 410 ∨ (env.rpcStatus attempt).is5xxRetryable = true) →
       env.deadlineOver attempt = false →
       k2.PartitionRequest env retries attempt =
         ((k2.PartitionRequest env r (attempt + 1)).1,
          (k2.PartitionRequest env r (attempt + 1)).2.1,
          k2.prTrace env attempt ++
            k2.PREvent.refreshGet attempt :: (k2.PartitionRequest env r (attempt + 1)).2.2)) := by
  constructor
  · intro hrpc
    rw [k2.PartitionRequest.eq_def]
    simp [hcoll, hass, hrpc, k2.prTrace]
  · intro r hr h410 hdl
    subst hr
    have hneg : ¬ ((env.rpcStatus attempt).code ≠ 410 ∧
        (env.rpcStatus attempt).is5xxRetryable = false) := by
      rcases h410 with h | h
      · exact fun hc => hc.1 h
      · intro hc
        rw [h] at hc
        exact Bool.false_ne_true hc.2.symm
    rw [k2.PartitionRequest.eq_def]
    simp [hcoll, hass, hneg, hdl, k2.prTrace]

/-- C4 witness: with a 200 RPC response the result is the response itself, no
retry. -/
theorem c4_partition_request_retry_policy_witness :
    k2.PartitionRequest k2.prEnvOkFix 1 0 =
      (k2.prEnvOkFix.rpcStatus 0, some (k2.prEnvOkFix.rpcResp 0), k2.prTrace k2.prEnvOkFix 0) :=
  (c4_partition_request_retry_policy k2.prEnvOkFix 0 1 rfl rfl).1 (by decide)

/-- C6: when the CPO answers 2xx but the partition for the key is absent or
not Assigned and no retries remain, `GetAssignedPartitionWithRetry` returns
`ServiceUnavailable` ("not all partitions assigned in cpo"); `PartitionRequest`
returns `ServiceUnavailable` ("partition not assigned") when the partition is
still not assigned after its refresh attempt; and while retries remain and the
deadline has not passed, the client sleeps `min(remaining, backoff)` — a sleep
bounded by the deadline — and retries with one retry fewer. -/
theorem c6_unassigned_partition_backoff (env : k2.GAPEnv) (prenv : k2.PREnv)
    (attempt retries : Nat) :
    ((env.cpoStatus attempt).is2xxOK = true → env.assigned attempt = false →
       k2.GetAssignedPartitionWithRetry env 0 attempt =
         (k2.Statuses.S503_Service_Unavailable "not all partitions assigned in cpo", [])) ∧
    (prenv.collPresent attempt = true → prenv.assigned attempt = false →
       k2.PartitionRequest prenv retries attempt =
         (k2.Statuses.S503_Service_Unavailable "partition not assigned", none,
          if prenv.collCached attempt && prenv.cachedAssigned attempt then []
          else [k2.PREvent.collectionGet attempt])) ∧
    (∀ r, (env.cpoStatus attempt).is2xxOK = true → env.assigned attempt = false →
       env.deadlineOver attempt = false →
       k2.GetAssignedPartitionWithRetry env (r + 1) attempt =
         ((k2.GetAssignedPartitionWithRetry env r (attempt + 1)).1,
          min (env.remaining attempt) env.backoff ::
            (k2.GetAssignedPartitionWithRetry env r (attempt + 1)).2) ∧
       min (env.remaining attempt) env.backoff ≤ env.remaining attempt) := by
  refine ⟨fun h2 hna => ?_, fun hcoll hna => ?_, fun r h2 hna hdl => ⟨?_, min_le_left _ _⟩⟩
  · rw [k2.GetAssignedPartitionWithRetry.eq_def]
    simp [h2, hna]
  · rw [k2.PartitionRequest.eq_def]
    simp [hcoll, hna]
  · rw [k2.GetAssignedPartitionWithRetry.eq_def]
    simp [h2, hna, hdl]

/-- C6 witness: 2xx from the CPO, partition never assigned, no retries left:
the result is 503 "not all partitions assigned in cpo". -/
theorem c6_unassigned_partition_backoff_witness :
    k2.GetAssignedPartitionWithRetry k2.gapEnvFix 0 0 =
      (k2.Statuses.S503_Service_Unavailable "not all partitions assigned in cpo", []) :=
  (c6_unassigned_partition_backoff k2.gapEnvFix k2.prEnvUnassignedFix 0 0).1 rfl rfl

/-- C8: for `numPartitions >= 1`, `getRangeEnds` returns exactly
`numPartitions` range-end strings; the last one is the open range end `""`,
and the entry at 0-based position `i < numPartitions - 1` is the int16 key
encoding of `(i+1)*share + 1`, where `share` is
`numWarehouses / numPartitions` when that quotient is non-zero and 1
otherwise. -/
theorem c8_get_range_ends (enc : Int → String) (np nw : Nat) (h : 1 ≤ np) :
    (k2.getRangeEnds enc np nw).length = np ∧
    (k2.getRangeEnds enc np nw).get? (np - 1) = some "" ∧
    (∀ i, i < np - 1 →
      (k2.getRangeEnds enc np nw).get? i =
        some (enc (k2.int16OfNat
          ((i + 1) * (if nw / np = 0 then 1 else nw / np) + 1)))) := by
  have hlen : (k2.getRangeEnds enc np nw).length = np := by
    simp [k2.getRangeEnds]
  refine ⟨hlen, ?_, fun i hi => ?_⟩
  · have hlt : np - 1 < ((List.range np).map
        (fun i => enc (k2.int16OfNat ((i + 1) *
          (if nw / np = 0 then 1 else nw / np) + 1)))).length := by
      simp
      omega
    simpa [k2.getRangeEnds] using List.get?_set_eq_of_lt "" hlt
  · have hne : np - 1 ≠ i := by omega
    have hilt : i < np := by omega
    rw [k2.getRangeEnds]
    simp only [List.get?_set_ne _ _ hne, List.get?_map, List.get?_range hilt,
      Option.map_some']

/-- C8 witness: two partitions over six warehouses give two range ends, the
last open. -/
theorem c8_get_range_ends_witness :
    (k2.getRangeEnds (fun z => toString z) 2 6).length = 2 :=
  (c8_get_range_ends (fun z => toString z) 2 6 (by decide)).1

/-- Helper: a successful `GetTimestampFromTSO` call preserves the worker
invariant, issues its batch with the control-info step, bases the batch at or
above the previous watermark, and moves the watermark to one past the batch. -/
theorem tso_step_sound (ci : k2.TSOWorkerControlInfo) (tsoId shardId : Nat)
    (st : k2.TSOWorkerState) (c : k2.TSOCall) (b : k2.TimestampBatch)
    (st1 : k2.TSOWorkerState)
    (hstep : 0 < ci.TBENanoSecStep) (hsh : 1 ≤ shardId)
    (hinv : k2.tsoStInv ci st) (hok : k2.tsoCallOk c)
    (h : k2.GetTimestampFromTSO ci tsoId shardId st c = some (b, st1)) :
    k2.tsoStInv ci st1 ∧
    b.TBENanoSecStep = ci.TBENanoSecStep ∧
    k2.tsoHiWater ci shardId st ≤ b.TBEBase ∧
    k2.tsoHiWater ci shardId st1 = b.TBEBase + b.TSCount * ci.TBENanoSecStep := by
  obtain ⟨hlast, hcnt⟩ := hinv
  obtain ⟨ht1, ht2, htlt⟩ := hok
  have hP : st.lastRequestTimeStampCount * ci.TBENanoSecStep ≤ 1000 :=
    le_trans (Nat.mul_le_mul_right _ hcnt) (Nat.div_mul_le_self 1000 _)
  simp only [k2.GetTimestampFromTSO, k2.tsoFastIssue] at h
  split_ifs at h with hg hrdy hthr hlt hne hleft hg2
  · -- fast path at c.t
    rw [Option.some.injEq, Prod.mk.injEq] at h
    obtain ⟨hb, hst⟩ := h
    subst hb
    subst hst
    have hlt2 : st.lastRequestTBEMicroSecRounded < c.t := hg.2.2
    refine ⟨⟨ht1, min_le_right _ _⟩, rfl, ?_, ?_⟩
    · simp only [k2.tsoHiWater]
      omega
    · simp only [k2.tsoHiWater]
      omega
  · -- busy-wait path, reissued on the fast path at c.t2
    rw [Option.some.injEq, Prod.mk.injEq] at h
    obtain ⟨hb, hst⟩ := h
    subst hb
    subst hst
    have hlt2 : st.lastRequestTBEMicroSecRounded < c.t2 := hg2.2.2
    refine ⟨⟨ht2, min_le_right _ _⟩, rfl, ?_, ?_⟩
    · simp only [k2.tsoHiWater]
      omega
    · simp only [k2.tsoHiWater]
      omega
  · -- same-microsecond path
    rw [Option.some.injEq, Prod.mk.injEq] at h
    obtain ⟨hb, hst⟩ := h
    subst hb
    subst hst
    have heq : c.t = st.lastRequestTBEMicroSecRounded := by omega
    have hdist : (st.lastRequestTimeStampCount + c.n) * ci.TBENanoSecStep =
        st.lastRequestTimeStampCount * ci.TBENanoSecStep + c.n * ci.TBENanoSecStep :=
      Nat.add_mul _ _ _
    refine ⟨⟨hlast, ?_⟩, rfl, ?_, ?_⟩
    · show st.lastRequestTimeStampCount + c.n ≤ 1000 / ci.TBENanoSecStep
      omega
    · simp only [k2.tsoHiWater]
      omega
    · simp only [k2.tsoHiWater]
      omega

/-- Helper: running any sequence of valid calls preserves the worker
invariant, never lowers the watermark, and every issued batch lies between the
starting watermark and the final one. -/
theorem tso_run_sound (ci : k2.TSOWorkerControlInfo) (tsoId shardId : Nat)
    (hstep : 0 < ci.TBENanoSecStep) (hsh : 1 ≤ shardId) :
    ∀ (calls : List k2.TSOCall) (st : k2.TSOWorkerState),
      k2.tsoStInv ci st → (∀ c ∈ calls, k2.tsoCallOk c) →
      k2.tsoStInv ci (k2.tsoRun ci tsoId shardId st calls).1 ∧
      k2.tsoHiWater ci shardId st ≤
        k2.tsoHiWater ci shardId (k2.tsoRun ci tsoId shardId st calls).1 ∧
      (∀ b ∈ (k2.tsoRun ci tsoId shardId st calls).2,
        b.TBENanoSecStep = ci.TBENanoSecStep ∧
        k2.tsoHiWater ci shardId st ≤ b.TBEBase ∧
        b.TBEBase + b.TSCount * ci.TBENanoSecStep ≤
          k2.tsoHiWater ci shardId (k2.tsoRun ci tsoId shardId st calls).1) := by
  intro calls
  induction calls with
  | nil =>
    intro st hinv _
    exact ⟨hinv, le_refl _, by simp [k2.tsoRun]⟩
  | cons c cs ih =>
    intro st hinv hok
    have hokc : k2.tsoCallOk c := hok c (by simp)
    have hokcs : ∀ x ∈ cs, k2.tsoCallOk x := fun x hx => hok x (by simp [hx])
    cases hres : k2.GetTimestampFromTSO ci tsoId shardId st c with
    | none =>
      simpa [k2.tsoRun, hres] using ih st hinv hokcs
    | some p =>
      obtain ⟨b, st1⟩ := p
      obtain ⟨hinv1, hbstep, hbase, hhi⟩ :=
        tso_step_sound ci tsoId shardId st c b st1 hstep hsh hinv hokc hres
      obtain ⟨hinvf, hmono, hball⟩ := ih st1 hinv1 hokcs
      have hst1le : k2.tsoHiWater ci shardId st ≤ k2.tsoHiWater ci shardId st1 := by
        rw [hhi]
        exact le_trans hbase (Nat.le_add_right _ _)
      simp only [k2.tsoRun, hres]
      refine ⟨hinvf, le_trans hst1le hmono, ?_⟩
      intro b2 hb2
      rcases List.mem_cons.mp hb2 with rfl | hmem
      · exact ⟨hbstep, hbase, hhi ▸ hmono⟩
      · obtain ⟨h1, h2, h3⟩ := hball b2 hmem
        exact ⟨h1, le_trans hst1le h2, h3⟩

/-- Helper: the batches issued by a run of valid calls are pairwise ordered:
every timestamp of an earlier batch is strictly below every timestamp of a
later batch. -/
theorem tso_run_pairwise (ci : k2.TSOWorkerControlInfo) (tsoId shardId : Nat)
    (hstep : 0 < ci.TBENanoSecStep) (hsh : 1 ≤ shardId) :
    ∀ (calls : List k2.TSOCall) (st : k2.TSOWorkerState),
      k2.tsoStInv ci st → (∀ c ∈ calls, k2.tsoCallOk c) →
      List.Pairwise
        (fun b1 b2 => ∀ i < b1.TSCount, ∀ j < b2.TSCount, k2.tsAt b1 i < k2.tsAt b2 j)
        (k2.tsoRun ci tsoId shardId st calls).2 := by
  intro calls
  induction calls with
  | nil =>
    intro st _ _
    simp [k2.tsoRun]
  | cons c cs ih =>
    intro st hinv hok
    have hokc : k2.tsoCallOk c := hok c (by simp)
    have hokcs : ∀ x ∈ cs, k2.tsoCallOk x := fun x hx => hok x (by simp [hx])
    cases hres : k2.GetTimestampFromTSO ci tsoId shardId st c with
    | none =>
      simpa [k2.tsoRun, hres] using ih st hinv hokcs
    | some p =>
      obtain ⟨b, st1⟩ := p
      obtain ⟨hinv1, hbstep, hbase, hhi⟩ :=
        tso_step_sound ci tsoId shardId st c b st1 hstep hsh hinv hokc hres
      obtain ⟨_, _, hball⟩ := tso_run_sound ci tsoId shardId hstep hsh cs st1 hinv1 hokcs
      simp only [k2.tsoRun, hres]
      refine List.pairwise_cons.mpr ⟨?_, ih st1 hinv1 hokcs⟩
      intro b2 hb2 i hi j hj
      obtain ⟨hb2step, hb2base, _⟩ := hball b2 hb2
      have hlt1 : k2.tsAt b i < k2.tsoHiWater ci shardId st1 := by
        rw [hhi, k2.tsAt, hbstep]
        exact Nat.add_lt_add_left (Nat.mul_lt_mul_of_lt_of_le hi (le_refl _) hstep) _
      have hle2 : k2.tsoHiWater ci shardId st1 ≤ k2.tsAt b2 j := by
        rw [k2.tsAt]
        exact le_trans hb2base (Nat.le_add_right _ _)
      exact lt_of_lt_of_le hlt1 hle2

/-- C3: over any sequence of successful `GetTimestampFromTSO` calls on one
worker, the timestamps within each returned batch are strictly increasing
(stepping by `TBENanoSecStep > 0`), and every timestamp of a later batch is
strictly greater than every timestamp of any earlier batch: a new microsecond
starts above the previous microsecond's timestamps, and within the same
microsecond the base advances by the already-issued count times
`TBENanoSecStep`. -/
theorem c3_tso_batches_strictly_increasing (ci : k2.TSOWorkerControlInfo)
    (tsoId shardId : Nat) (calls : List k2.TSOCall)
    (hstep : 0 < ci.TBENanoSecStep) (hsh : 1 ≤ shardId)
    (hcalls : ∀ c ∈ calls, k2.tsoCallOk c) :
    (∀ b ∈ (k2.tsoRun ci tsoId shardId k2.tsoInitState calls).2,
       b.TBENanoSecStep = ci.TBENanoSecStep ∧
       ∀ i < b.TSCount, ∀ j < b.TSCount, i < j → k2.tsAt b i < k2.tsAt b j) ∧
    List.Pairwise
      (fun b1 b2 => ∀ i < b1.TSCount, ∀ j < b2.TSCount, k2.tsAt b1 i < k2.tsAt b2 j)
      (k2.tsoRun ci tsoId shardId k2.tsoInitState calls).2 := by
  have hinv0 : k2.tsoStInv ci k2.tsoInitState := ⟨rfl, Nat.zero_le _⟩
  constructor
  · intro b hb
    obtain ⟨hbstep, _, _⟩ :=
      (tso_run_sound ci tsoId shardId hstep hsh calls _ hinv0 hcalls).2.2 b hb
    refine ⟨hbstep, fun i _ j _ hij => ?_⟩
    rw [k2.tsAt, k2.tsAt, hbstep]
    exact Nat.add_lt_add_left (Nat.mul_lt_mul_of_lt_of_le hij (le_refl _) hstep) _
  · exact tso_run_pairwise ci tsoId shardId hstep hsh calls _ hinv0 hcalls

/-- C3 witness: the three-call fixture run yields pairwise strictly ordered
batches. -/
theorem c3_tso_batches_strictly_increasing_witness :
    List.Pairwise
      (fun b1 b2 => ∀ i < b1.TSCount, ∀ j < b2.TSCount, k2.tsAt b1 i < k2.tsAt b2 j)
      (k2.tsoRun k2.tsoCiFix 3 1 k2.tsoInitState k2.tsoCallsFix).2 :=
  (c3_tso_batches_strictly_increasing k2.tsoCiFix 3 1 k2.tsoCallsFix (by decide) (by decide)
    (by decide)).2

/-- C10: a worker never issues more than `1000 / TBENanoSecStep` timestamps
against the same microsecond-rounded batch base: after any prefix of a run
the per-microsecond issued count is at most `1000 / TBENanoSecStep`; the fast
path caps the issued count at `min(batchSizeRequested, 1000/TBENanoSecStep)`;
and a call arriving in the same microsecond as the previous one is granted the
full requested size only when the leftover count suffices, and otherwise the
batch is based on the next microsecond `t2` reached by the busy-wait. -/
theorem c10_tso_per_microsecond_cap (ci : k2.TSOWorkerControlInfo)
    (tsoId shardId : Nat) (calls : List k2.TSOCall)
    (hstep : 0 < ci.TBENanoSecStep) (hsh : 1 ≤ shardId)
    (hcalls : ∀ c ∈ calls, k2.tsoCallOk c) :
    (∀ k ≤ calls.length,
       (k2.tsoRun ci tsoId shardId k2.tsoInitState
          (calls.take k)).1.lastRequestTimeStampCount ≤ 1000 / ci.TBENanoSecStep) ∧
    (∀ (st : k2.TSOWorkerState) (c : k2.TSOCall), k2.tsoFastGuard ci st c.t →
       ∃ st1, k2.GetTimestampFromTSO ci tsoId shardId st c =
         some ({ TBEBase := c.t + shardId - 1, TSOId := tsoId, TsDelta := ci.TsDelta,
                 TTLNanoSec := ci.BatchTTL,
                 TSCount := min c.n (1000 / ci.TBENanoSecStep),
                 TBENanoSecStep := ci.TBENanoSecStep }, st1)) ∧
    (∀ (st : k2.TSOWorkerState) (c : k2.TSOCall) (b : k2.TimestampBatch)
        (st1 : k2.TSOWorkerState),
       c.t = st.lastRequestTBEMicroSecRounded →
       k2.GetTimestampFromTSO ci tsoId shardId st c = some (b, st1) →
       (if 1000 / ci.TBENanoSecStep - st.lastRequestTimeStampCount < c.n
        then b.TBEBase = c.t2 + shardId - 1
        else b.TSCount = c.n ∧
          b.TBEBase = c.t + shardId - 1 +
            st.lastRequestTimeStampCount * ci.TBENanoSecStep)) := by
  refine ⟨fun k hk => ?_, fun st c hg => ?_, fun st c b st1 heq h => ?_⟩
  · have hinv0 : k2.tsoStInv ci k2.tsoInitState := ⟨rfl, Nat.zero_le _⟩
    have hsub : ∀ x ∈ calls.take k, k2.tsoCallOk x :=
      fun x hx => hcalls x (List.take_subset k calls hx)
    exact (tso_run_sound ci tsoId shardId hstep hsh (calls.take k) _ hinv0 hsub).1.2
  · exact ⟨(k2.tsoFastIssue ci tsoId shardId c.t c.n).2,
      by simp [k2.GetTimestampFromTSO, k2.tsoFastIssue, hg]⟩
  · have hngd : ¬ k2.tsoFastGuard ci st c.t := by
      intro hgd
      have := hgd.2.2
      omega
    simp only [k2.GetTimestampFromTSO, k2.tsoFastIssue] at h
    split_ifs at h with hg hrdy hthr hlt hne hleft
    · rw [if_pos hne]
      rw [Option.some.injEq, Prod.mk.injEq] at h
      obtain ⟨hb, _⟩ := h
      subst hb
      rfl
    · rw [if_neg hne]
      rw [Option.some.injEq, Prod.mk.injEq] at h
      obtain ⟨hb, _⟩ := h
      subst hb
      exact ⟨rfl, rfl⟩

/-- C10 witness: after the two same-microsecond calls of the fixture the
issued count stays within the ten timestamps that fit in one microsecond. -/
theorem c10_tso_per_microsecond_cap_witness :
    (k2.tsoRun k2.tsoCiFix 3 1 k2.tsoInitState
       (k2.tsoCallsFix.take 2)).1.lastRequestTimeStampCount ≤
      1000 / k2.tsoCiFix.TBENanoSecStep :=
  (c10_tso_per_microsecond_cap k2.tsoCiFix 3 1 k2.tsoCallsFix (by decide) (by decide)
    (by decide)).1 2 (by decide)
